import Mathlib

/-!
Verification of the SafeHarbor community-forum code against its
natural-language specification.

The definitions below are shallow embeddings of the TypeScript sources:

* the pseudonym module (`ADJECTIVES`, `NOUNS`, `hashString`,
  `generatePseudonym`), with JavaScript's `>>> 0`, `>>`, `%` and
  array-indexing semantics made explicit;
* the Supabase-backed forum API handler (`src/api/sos-trigger.ts`,
  forum section): the GET single-thread / thread-list branches and the
  POST reply / create-thread branches, over an explicit store of thread
  and post rows;
* the placeholder forum handler `src/api/forum.ts` (POST branch);
* the client-side validation of the new-thread and reply pages;
* `generateAnonymousId` from `CommunityContext.tsx`.
-/

namespace SafeHarbor

/-! ### Pseudonym module -/

/-- Adjective table of the pseudonym module. -/
def ADJECTIVES : List String :=
  ["Brave", "Calm", "Quiet", "Gentle", "Kind", "Steady", "Hopeful", "Bright", "Caring", "Soft"]

/-- Noun table of the pseudonym module. -/
def NOUNS : List String :=
  ["Harbor", "Star", "River", "Willow", "Lantern", "Sky", "Anchor", "Horizon", "Oak", "Ember"]

/-- UTF-16 code units of one character, as JavaScript's `charCodeAt` iterates them. -/
def utf16CodeUnits (c : Char) : List Nat :=
  let n := c.toNat
  if n < 65536 then [n]
  else [55296 + (n - 65536) / 1024, 56320 + (n - 65536) % 1024]

/-- `hashString` from the pseudonym module:
`hash = (hash * 31 + input.charCodeAt(i)) >>> 0` over the code units of the input;
`>>> 0` reduces the (exact) intermediate value modulo `2^32`. -/
def hashString (input : String) : Nat :=
  (input.toList.flatMap utf16CodeUnits).foldl (fun h c => (h * 31 + c) % 4294967296) 0

/-- JavaScript `ToInt32`: reinterpret a 32-bit unsigned value as a signed one. -/
def toInt32 (h : Nat) : Int :=
  if h < 2147483648 then (h : Int) else (h : Int) - 4294967296

/-- JavaScript's signed right shift `>>`: an arithmetic shift, i.e. flooring division. -/
def jsShr (i : Int) (k : Nat) : Int := Int.fdiv i (2 ^ k)

/-- JavaScript's `%`: remainder carrying the sign of the dividend
(`-0` collapses to `0`, which is how array indexing treats it). -/
def jsRem (a : Int) (n : Nat) : Int :=
  if 0 ≤ a then a % (n : Int) else -((-a) % (n : Int))

/-- JavaScript indexing into a string array: an out-of-range (negative) index
yields `undefined`, which template-literal interpolation renders as `"undefined"`. -/
def jsIndex (l : List String) (i : Int) : String :=
  if 0 ≤ i then l.getD i.toNat "undefined" else "undefined"

/-- `generatePseudonym` from the pseudonym module (JavaScript semantics of
`||`, `>>`, `%` and array indexing made explicit):
`ADJECTIVES[hash % 10]`, `NOUNS[(hash >> 8) % 10]`, `(hash % 900) + 100`. -/
def generatePseudonym (anonymousId : String) : String :=
  let hash := hashString (if anonymousId = "" then "anon" else anonymousId)
  let adjective := jsIndex ADJECTIVES (jsRem (hash : Int) ADJECTIVES.length)
  let noun := jsIndex NOUNS (jsRem (jsShr (toInt32 hash) 8) NOUNS.length)
  let number := hash % 900 + 100
  adjective ++ noun ++ "-" ++ toString number

/-- The pseudonym algorithm as the specification words it, with mathematical
(non-negative) shift and modulus: adjective at `h mod 10`, noun at
`(h >> 8) mod 10`, number `(h mod 900) + 100`. -/
def specPseudonym (s : String) : String :=
  let h := hashString (if s = "" then "anon" else s)
  ADJECTIVES.getD (h % 10) "" ++ NOUNS.getD (h / 256 % 10) "" ++ "-" ++ toString (h % 900 + 100)

/-! ### The PII regular expressions

The forum handlers test content against
`/\b[A-Za-z0-9._%+-]+@[A-Za-z0-9.-]+\.[A-Z|a-z]{2,}\b/` (e-mail) and the
client pages against `/\b\d{3}[-.]?\d{3}[-.]?\d{4}\b/` (phone).  `test`
asks whether a match exists anywhere, so the matchers below search over
all start positions and all choices of the backtrackable pieces.  Word
characters (for `\b`) are `[A-Za-z0-9_]`, as in a non-Unicode JavaScript
regular expression. -/

/-- ASCII letter, as matched by `[A-Za-z]`. -/
def isAsciiLetter (c : Char) : Bool :=
  ('A' ≤ c && c ≤ 'Z') || ('a' ≤ c && c ≤ 'z')

/-- ASCII digit, as matched by `\d`. -/
def isAsciiDigit (c : Char) : Bool := '0' ≤ c && c ≤ '9'

/-- Word character for `\b`: `[A-Za-z0-9_]`. -/
def isWordChar (c : Char) : Bool := isAsciiLetter c || isAsciiDigit c || c = '_'

/-- The class `[A-Za-z0-9._%+-]` (local part of the e-mail pattern). -/
def isLocalChar (c : Char) : Bool :=
  isAsciiLetter c || isAsciiDigit c || c = '.' || c = '_' || c = '%' || c = '+' || c = '-'

/-- The class `[A-Za-z0-9.-]` (domain part of the e-mail pattern). -/
def isDomainChar (c : Char) : Bool :=
  isAsciiLetter c || isAsciiDigit c || c = '.' || c = '-'

/-- The class `[A-Z|a-z]` (top-level-domain part; it literally includes `'|'`). -/
def isTldChar (c : Char) : Bool := isAsciiLetter c || c = '|'

/-- Matcher for the tail `[A-Z|a-z]{2,}\b` of the e-mail pattern.  `count`
characters of the class have been consumed, and `prevWord` records whether the
previously consumed character is a word character (for the final `\b`). -/
def tldFrom (prevWord : Bool) (count : Nat) : List Char → Bool
  | [] => 2 ≤ count && prevWord
  | c :: rest =>
    (2 ≤ count && prevWord != isWordChar c) || (isTldChar c && tldFrom (isWordChar c) (count + 1) rest)

/-- Matcher for `[A-Za-z0-9.-]+\.` followed by the TLD part.  A `'.'` may act
either as a domain character or as the literal dot, so both are tried. -/
def domFrom (count : Nat) : List Char → Bool
  | [] => false
  | c :: rest =>
    (1 ≤ count && c = '.' && tldFrom false 0 rest) || (isDomainChar c && domFrom (count + 1) rest)

/-- Matcher for the remainder of `[A-Za-z0-9._%+-]+@` once `count` local
characters have been consumed (`'@'` is not a local character, so the run of
local characters before it is forced). -/
def localFrom (count : Nat) : List Char → Bool
  | [] => false
  | c :: rest =>
    if c = '@' then 1 ≤ count && domFrom 0 rest
    else isLocalChar c && localFrom (count + 1) rest

/-- Try the e-mail pattern at every start position; `prevWord` says whether the
character before the current position is a word character (for the leading `\b`). -/
def emailScan (prevWord : Bool) : List Char → Bool
  | [] => false
  | c :: rest =>
    ((prevWord != isWordChar c) && isLocalChar c && localFrom 1 rest) || emailScan (isWordChar c) rest

/-- `emailPattern.test` from the forum handlers. -/
def emailTest (s : String) : Bool := emailScan false s.toList

/-- Consume exactly `n` ASCII digits. -/
def digitsN : Nat → List Char → Option (List Char)
  | 0, cs => some cs
  | _ + 1, [] => none
  | n + 1, c :: rest => if isAsciiDigit c then digitsN n rest else none

/-- The optional separator `[-.]?`: both skipping and consuming are tried. -/
def sepOpts : List Char → List (List Char)
  | [] => [[]]
  | c :: rest => if c = '-' || c = '.' then [c :: rest, rest] else [c :: rest]

/-- Matcher for the final `\d{4}\b` of the phone pattern. -/
def phoneTail (cs : List Char) : Bool :=
  match digitsN 4 cs with
  | none => false
  | some [] => true
  | some (c :: _) => !isWordChar c

/-- Matcher for `\d{3}[-.]?\d{3}[-.]?\d{4}\b` at one start position. -/
def phoneFrom (cs : List Char) : Bool :=
  match digitsN 3 cs with
  | none => false
  | some r1 =>
    (sepOpts r1).any fun r2 =>
      match digitsN 3 r2 with
      | none => false
      | some r3 => (sepOpts r3).any fun r4 => phoneTail r4

/-- Try the phone pattern at every start position (its first character is a
digit, hence a word character, so the leading `\b` holds exactly when the
preceding character is not a word character). -/
def phoneScan (prevWord : Bool) : List Char → Bool
  | [] => false
  | c :: rest => (!prevWord && phoneFrom (c :: rest)) || phoneScan (isWordChar c) rest

/-- `phonePattern.test` from the client pages. -/
def phoneTest (s : String) : Bool := phoneScan false s.toList

/-! ### The Supabase-backed forum handler (`src/api/sos-trigger.ts`, forum section)

Rows of `forum_threads` and `forum_posts` as created by the handler and the
schema (`created_at` and `last_activity` default to `now()`).  Timestamps are
naturals, row ids are naturals (the database generates them; the handler takes
them as parameters).  Each Supabase insert can fail, which the handler models
with explicit failure flags. -/

/-- A `forum_threads` row. -/
structure Thread where
  id : Nat
  title : String
  authorId : String
  createdAt : Nat
  lastActivity : Nat
deriving DecidableEq

/-- A `forum_posts` row. -/
structure Post where
  id : Nat
  threadId : Nat
  content : String
  authorId : String
  createdAt : Nat
deriving DecidableEq

/-- The forum store: the two tables the handler touches. -/
structure Store where
  threads : List Thread
  posts : List Post
deriving DecidableEq

/-- `ORDER BY last_activity DESC` as a relation on thread rows. -/
def byActivityDesc (a b : Thread) : Prop := b.lastActivity ≤ a.lastActivity

instance : DecidableRel byActivityDesc := fun _ _ => Nat.decLe _ _

instance : IsTotal Thread byActivityDesc :=
  ⟨fun a b => Nat.le_total b.lastActivity a.lastActivity⟩

instance : IsTrans Thread byActivityDesc :=
  ⟨fun _ _ _ h1 h2 => Nat.le_trans h2 h1⟩

/-- `ORDER BY created_at ASC` as a relation on post rows. -/
def byCreatedAsc (a b : Post) : Prop := a.createdAt ≤ b.createdAt

instance : DecidableRel byCreatedAsc := fun _ _ => Nat.decLe _ _

instance : IsTotal Post byCreatedAsc := ⟨fun a b => Nat.le_total a.createdAt b.createdAt⟩

instance : IsTrans Post byCreatedAsc := ⟨fun _ _ _ h1 h2 => Nat.le_trans h1 h2⟩

/-- Result of the GET thread-list branch. -/
structure ListThreadsResult where
  threads : List Thread
  page : Nat
  totalPages : Nat
deriving DecidableEq

/-- GET without `threadId`: threads ordered by `last_activity` descending,
`range(start, end)` with `start = (page-1)*limit` and `end = start+limit-1`
(both inclusive), and `totalPages = count ? Math.ceil(count / limitNum) : 1`
(`0` is falsy, so an empty table yields `1`). -/
def listThreads (s : Store) (page limit : Nat) : ListThreadsResult :=
  let sorted := List.insertionSort byActivityDesc s.threads
  { threads := (sorted.drop ((page - 1) * limit)).take limit
    page := page
    totalPages := if s.threads.length = 0 then 1 else (s.threads.length + limit - 1) / limit }

/-- GET with `threadId`: `.eq('id', threadId).single()` errors unless exactly
one row matches, which the handler surfaces as a 500 response; on success the
thread is returned together with its replies ordered by `created_at` ascending. -/
def getThread (s : Store) (tid : Nat) : Nat × Option (Thread × List Post) :=
  match s.threads.filter (fun t => t.id == tid) with
  | [t] =>
    (200, some (t, List.insertionSort byCreatedAsc (s.posts.filter (fun p => p.threadId == tid))))
  | _ => (500, none)

/-- JavaScript falsiness of an optional string field: absent or empty. -/
def jsFalsyStr : Option String → Bool
  | none => true
  | some s => s = ""

/-- Whitespace as JavaScript `trim` removes it (space, tab, newlines, vertical
tab, form feed, NBSP, BOM, line and paragraph separators). -/
def isJsWhitespace (c : Char) : Bool :=
  c = ' ' || c = '\t' || c = '\n' || c = '\r' || c.toNat = 11 || c.toNat = 12 ||
  c.toNat = 160 || c.toNat = 65279 || c.toNat = 8232 || c.toNat = 8233

/-- JavaScript `String.prototype.trim`. -/
def jsTrim (s : String) : String :=
  String.mk (((s.toList.dropWhile isJsWhitespace).reverse.dropWhile isJsWhitespace).reverse)

/-- `List`-level test that `p` begins `l`. -/
def listBeginsWith : List Char → List Char → Bool
  | _, [] => true
  | [], _ :: _ => false
  | c :: cs, p :: ps => c = p && listBeginsWith cs ps

/-- JavaScript `String.prototype.startsWith`. -/
def strStartsWith (s pre : String) : Bool := listBeginsWith s.toList pre.toList

/-- The POST request body of the forum handlers. -/
structure PostRequest where
  title : Option String
  content : Option String
  authorId : Option String
  threadId : Option Nat
deriving DecidableEq

/-- Outcome of the POST branch. -/
inductive PostOutcome where
  | badRequest (msg : String)
  | serverError
  | created
deriving DecidableEq

/-- POST branch of the Supabase-backed forum handler: presence check on
`authorId`/`content`, e-mail check on `content`, then either the reply branch
(`threadId` present: insert the post, then unconditionally bump the parent's
`last_activity` to now) or the create-thread branch (title presence check,
insert the thread row, then insert the initial post row; a failure of the
second insert is reported as a 500 but the thread row is not rolled back).
`insertAFails` makes the branch's first insert fail, `insertBFails` the
create-thread branch's post insert. -/
def handleForumPost (s : Store) (req : PostRequest) (now newThreadId newPostId : Nat)
    (insertAFails insertBFails : Bool) : PostOutcome × Store :=
  if jsFalsyStr req.authorId || jsFalsyStr req.content then
    (PostOutcome.badRequest "Missing required fields", s)
  else if emailTest (req.content.getD "") then
    (PostOutcome.badRequest "Content cannot contain email addresses", s)
  else
    match req.threadId with
    | some tid =>
      if insertAFails then (PostOutcome.serverError, s)
      else
        let s1 : Store := { s with posts := s.posts ++
          [{ id := newPostId, threadId := tid, content := req.content.getD "",
             authorId := req.authorId.getD "", createdAt := now }] }
        (PostOutcome.created,
         { s1 with threads :=
            s1.threads.map (fun t => if t.id = tid then { t with lastActivity := now } else t) })
    | none =>
      if jsFalsyStr req.title then
        (PostOutcome.badRequest "Title is required for new threads", s)
      else if insertAFails then (PostOutcome.serverError, s)
      else
        let s1 : Store := { s with threads := s.threads ++
          [{ id := newThreadId, title := req.title.getD "", authorId := req.authorId.getD "",
             createdAt := now, lastActivity := now }] }
        if insertBFails then (PostOutcome.serverError, s1)
        else
          (PostOutcome.created,
           { s1 with posts := s1.posts ++
             [{ id := newPostId, threadId := newThreadId, content := req.content.getD "",
                authorId := req.authorId.getD "", createdAt := now }] })

/-! ### The placeholder forum handler (`src/api/forum.ts`, POST branch) -/

/-- The post object echoed by the 201 response of `src/api/forum.ts`
(its `id` is `Date.now().toString()`). -/
structure TsPost where
  id : Nat
  title : Option String
  content : String
  authorId : String
  threadId : Option String
deriving DecidableEq

/-- Outcome of the `src/api/forum.ts` POST branch. -/
inductive TsOutcome where
  | response (status : Nat) (errorMsg : String)
  | created (post : TsPost)
deriving DecidableEq

/-- POST branch of `src/api/forum.ts`: presence check, the `anon_` prefix
check on `authorId`, the e-mail check on `content`, then a 201 echoing the
post object. -/
def forumTsPost (title content authorId : Option String) (threadId : Option String)
    (now : Nat) : TsOutcome :=
  if jsFalsyStr authorId || jsFalsyStr content then
    TsOutcome.response 400 "Missing required fields"
  else if !strStartsWith (authorId.getD "") "anon_" then
    TsOutcome.response 400 "Invalid author ID format"
  else if emailTest (content.getD "") then
    TsOutcome.response 400 "Content cannot contain email addresses"
  else
    TsOutcome.created
      { id := now, title := title, content := content.getD "",
        authorId := authorId.getD "", threadId := threadId }

/-! ### Client-side validation (`pages/community/new.tsx` and
`pages/community/thread/[id].tsx`) -/

/-- The validation sequence of the new-thread page's submit handler; `some`
is the error message shown, `none` means the request is submitted. -/
def newThreadValidate (title content : String) : Option String :=
  if jsTrim title = "" ∨ (jsTrim title).length < 3 then
    some "Title must be at least 3 characters long"
  else if jsTrim content = "" ∨ (jsTrim content).length < 10 then
    some "Content must be at least 10 characters long"
  else if emailTest title || emailTest content then
    some "Posts cannot contain email addresses"
  else if phoneTest title || phoneTest content then
    some "Posts cannot contain phone numbers"
  else none

/-- The validation sequence of the thread page's reply handler. -/
def replyValidate (replyContent : String) : Option String :=
  if jsTrim replyContent = "" ∨ (jsTrim replyContent).length < 10 then
    some "Reply must be at least 10 characters long"
  else if emailTest replyContent || phoneTest replyContent then
    some "Replies cannot contain email addresses or phone numbers"
  else none

/-! ### `generateAnonymousId` from `CommunityContext.tsx` -/

/-- One base-36 digit character as JavaScript renders it (`0-9a-z`). -/
def base36DigitChar (d : Nat) : Char :=
  if d < 10 then Char.ofNat (48 + d) else Char.ofNat (87 + d)

/-- Digits of `n` in base 36, most significant first; `fuel ≥ n` suffices. -/
def natToBase36Go : Nat → Nat → List Char
  | 0, _ => []
  | fuel + 1, n => if n = 0 then [] else natToBase36Go fuel (n / 36) ++ [base36DigitChar (n % 36)]

/-- JavaScript `Number.prototype.toString(36)` on a natural (`Date.now().toString(36)`). -/
def natToBase36 (n : Nat) : String := if n = 0 then "0" else String.mk (natToBase36Go n n)

/-- `Math.random().toString(36)`: the random value lies in `[0,1)` and is
represented by the finite base-36 fractional expansion JavaScript prints
(empty for `0` — rendered as just `"0"` — and with no trailing zero digit
otherwise). -/
def randomToString36 (digits : List Nat) : String :=
  if digits.isEmpty then "0" else String.mk ('0' :: '.' :: digits.map base36DigitChar)

/-- JavaScript `substring(2, 10)`. -/
def jsSubstring2to10 (s : String) : String := String.mk ((s.toList.drop 2).take 8)

/-- `generateAnonymousId` from `CommunityContext.tsx`:
`` `${prefix}_${randomPart}_${timestamp}` `` with `prefix = 'anon'`,
`randomPart = Math.random().toString(36).substring(2, 10)` and
`timestamp = Date.now().toString(36)`. -/
def generateAnonymousId (digits : List Nat) (nowMs : Nat) : String :=
  "anon_" ++ jsSubstring2to10 (randomToString36 digits) ++ "_" ++ natToBase36 nowMs

/-- The random-token component of a generated id: everything after `"anon_"`
up to the next underscore (base-36 digit characters are never underscores). -/
def anonToken (s : String) : String :=
  String.mk ((s.toList.drop 5).takeWhile (fun c => c != '_'))

end SafeHarbor

namespace SafeHarbor

example : emailTest "contact me at test@example.com please" = true := by decide
example : emailTest "a@b.co" = true := by decide
example : emailTest "no at sign here 555-123-4567" = false := by decide
example : emailTest "a@b.com5" = false := by decide
example : emailTest "x@y" = false := by decide
example : phoneTest "call 555-123-4567 now" = true := by decide
example : phoneTest "5551234567" = true := by decide
example : phoneTest "555.123.4567" = true := by decide
example : phoneTest "55512345678" = false := by decide
example : phoneTest "digits 12 and words" = false := by decide

/-- C1: the code does not implement the spec's pseudonym algorithm: on input
`"abcdefg"` the 32-bit hash is `3088675940 ≥ 2^31`, JavaScript's signed `>>`
makes the noun index negative, and the pseudonym comes out as
`"Braveundefined-240"` instead of the spec's `"BraveHarbor-240"`. -/
theorem generatePseudonym_deviates_from_spec :
    hashString "abcdefg" = 3088675940 ∧
    generatePseudonym "abcdefg" = "Braveundefined-240" ∧
    specPseudonym "abcdefg" = "BraveHarbor-240" ∧
    generatePseudonym "abcdefg" ≠ specPseudonym "abcdefg" := by
  refine ⟨by decide, by decide, by decide, by decide⟩

/-- C8: `generatePseudonym` is not always well-formed: on `"anonymous"` the
hash is `≥ 2^31`, the noun index is negative, and the output
`"Calmundefined-521"` contains `"undefined"`, which is not in the noun table. -/
theorem generatePseudonym_not_wellformed :
    generatePseudonym "anonymous" = "Calmundefined-521" ∧
    "undefined" ∉ NOUNS := by
  refine ⟨by decide, by decide⟩

/-- C2 counterexample: a valid create-thread request whose initial-post insert
fails is reported as a 500, yet the thread row persists with zero posts — the
claim that on such a failure no thread row persists is false. -/
theorem createThread_not_atomic_cex :
    handleForumPost ⟨[], []⟩
        ⟨some "Hello there", some "I could use some support today", some "anon_abc", none⟩
        5 1 2 false true =
      (PostOutcome.serverError,
       ⟨[⟨1, "Hello there", "anon_abc", 5, 5⟩], []⟩) := by
  decide

/-- C2 amended: when the create-thread branch's initial-post insert fails, the
operation is reported as failed (500), but the already-inserted thread row is
not rolled back: it stays in the store, the post table is unchanged, and (for
a fresh thread id) the new thread has zero posts. -/
theorem createThread_postInsertFail_keepsThread (s : Store) (req : PostRequest)
    (now nid pid : Nat)
    (hA : jsFalsyStr req.authorId = false) (hC : jsFalsyStr req.content = false)
    (hE : emailTest (req.content.getD "") = false) (hT : req.threadId = none)
    (hTitle : jsFalsyStr req.title = false)
    (hFresh : ∀ p ∈ s.posts, p.threadId ≠ nid) :
    handleForumPost s req now nid pid false true =
      (PostOutcome.serverError,
       { s with threads := s.threads ++ [⟨nid, req.title.getD "", req.authorId.getD "", now, now⟩] }) ∧
    ∀ p ∈ (handleForumPost s req now nid pid false true).2.posts, p.threadId ≠ nid := by
  have hmain : handleForumPost s req now nid pid false true =
      (PostOutcome.serverError,
       { s with threads := s.threads ++ [⟨nid, req.title.getD "", req.authorId.getD "", now, now⟩] }) := by
    simp [handleForumPost, hA, hC, hE, hT, hTitle]
  exact ⟨hmain, by rw [hmain]; exact hFresh⟩

/-- C2 witness: the amended statement at a concrete request and store. -/
theorem createThread_postInsertFail_keepsThread_witness :
    handleForumPost ⟨[], []⟩
        ⟨some "Checking in", some "Sending encouragement to everyone", some "anon_w2", none⟩
        7 3 4 false true =
      (PostOutcome.serverError, ⟨[⟨3, "Checking in", "anon_w2", 7, 7⟩], []⟩) ∧
    ∀ p ∈ (handleForumPost ⟨[], []⟩
        ⟨some "Checking in", some "Sending encouragement to everyone", some "anon_w2", none⟩
        7 3 4 false true).2.posts, p.threadId ≠ 3 :=
  createThread_postInsertFail_keepsThread ⟨[], []⟩
    ⟨some "Checking in", some "Sending encouragement to everyone", some "anon_w2", none⟩
    7 3 4 (by decide) (by decide) (by decide) rfl (by decide) (by decide)

/-- C3 counterexample: a reply whose content matches the phone pattern (and
contains no e-mail) is not rejected by the service: the post is stored and the
request answered 201. -/
theorem phoneContent_reply_accepted_cex :
    phoneTest "Please call 555-123-4567 soon" = true ∧
    handleForumPost ⟨[⟨1, "Welcome", "anon_a", 0, 0⟩], []⟩
        ⟨none, some "Please call 555-123-4567 soon", some "anon_b", some 1⟩
        9 0 6 false false =
      (PostOutcome.created,
       ⟨[⟨1, "Welcome", "anon_a", 0, 9⟩],
        [⟨6, 1, "Please call 555-123-4567 soon", "anon_b", 9⟩]⟩) := by
  refine ⟨by decide, by decide⟩

/-- C3 amended: the API rejects (400, before any store change) exactly content
matching the e-mail pattern; the phone pattern and the title are checked only
client-side (the new-thread page checks both fields against both patterns, the
reply page checks the reply against both), while the API stores reply content
that matches the phone pattern but no e-mail pattern. -/
theorem piiValidation_amended :
    (∀ (s : Store) (req : PostRequest) (now nid pid : Nat) (fA fB : Bool),
        jsFalsyStr req.authorId = false → jsFalsyStr req.content = false →
        emailTest (req.content.getD "") = true →
        handleForumPost s req now nid pid fA fB =
          (PostOutcome.badRequest "Content cannot contain email addresses", s)) ∧
    (∀ title content : String,
        (emailTest title || emailTest content || phoneTest title || phoneTest content) = true →
        newThreadValidate title content ≠ none) ∧
    (∀ content : String, (emailTest content || phoneTest content) = true →
        replyValidate content ≠ none) ∧
    (∀ (s : Store) (req : PostRequest) (now nid pid tid : Nat),
        req.threadId = some tid →
        jsFalsyStr req.authorId = false → jsFalsyStr req.content = false →
        emailTest (req.content.getD "") = false →
        (handleForumPost s req now nid pid false false).1 = PostOutcome.created) := by
  refine ⟨?_, ?_, ?_, ?_⟩
  · intro s req now nid pid fA fB hA hC hE
    simp [handleForumPost, hA, hC, hE]
  · intro title content h
    unfold newThreadValidate
    split_ifs <;> simp_all
  · intro content h
    unfold replyValidate
    split_ifs <;> simp_all
  · intro s req now nid pid tid hT hA hC hE
    simp [handleForumPost, hA, hC, hE, hT]

/-- C3 witness: the amended statement at concrete inputs: e-mail content is
rejected by the API with the store untouched, phone content is rejected by
both client pages, and a phone-only reply is stored by the API. -/
theorem piiValidation_amended_witness :
    handleForumPost ⟨[], []⟩
        ⟨some "Advice", some "reach me at test@example.com", some "anon_z", none⟩
        2 1 1 false false =
      (PostOutcome.badRequest "Content cannot contain email addresses", ⟨[], []⟩) ∧
    newThreadValidate "Hi all" "my number is 555-123-4567 okay" ≠ none ∧
    replyValidate "call 555.123.4567 please" ≠ none ∧
    (handleForumPost ⟨[⟨4, "Open thread", "anon_a", 0, 0⟩], []⟩
        ⟨none, some "ring 555-123-4567 anytime", some "anon_q", some 4⟩
        8 0 2 false false).1 = PostOutcome.created :=
  ⟨piiValidation_amended.1 ⟨[], []⟩
      ⟨some "Advice", some "reach me at test@example.com", some "anon_z", none⟩
      2 1 1 false false (by decide) (by decide) (by decide),
   piiValidation_amended.2.1 "Hi all" "my number is 555-123-4567 okay" (by decide),
   piiValidation_amended.2.2.1 "call 555.123.4567 please" (by decide),
   piiValidation_amended.2.2.2 ⟨[⟨4, "Open thread", "anon_a", 0, 0⟩], []⟩
      ⟨none, some "ring 555-123-4567 anytime", some "anon_q", some 4⟩
      8 0 2 4 rfl (by decide) (by decide) (by decide)⟩

/-- C7 counterexample: the API performs no length validation: a create-thread
request with a title of length 2 is accepted with a 201. -/
theorem titleLength2_accepted_cex :
    ("ab" : String).length = 2 ∧
    (handleForumPost ⟨[], []⟩ ⟨some "ab", some "plenty of thoughtful words", some "anon_c", none⟩
        4 1 2 false false).1 = PostOutcome.created := by
  refine ⟨by decide, by decide⟩

/-- C7 amended: the length minima exist only client-side: the new-thread page's
submit handler rejects a trimmed title shorter than 3 characters with the title
error and accepts one of length ≥ 3 when the other checks pass; the API itself
accepts a create-thread request with a title of length 2. -/
theorem titleBounds_amended :
    (∀ title content : String, (jsTrim title).length < 3 →
        newThreadValidate title content = some "Title must be at least 3 characters long") ∧
    (∀ title content : String, 3 ≤ (jsTrim title).length → 10 ≤ (jsTrim content).length →
        emailTest title = false → emailTest content = false →
        phoneTest title = false → phoneTest content = false →
        newThreadValidate title content = none) ∧
    (∀ (s : Store) (content authorId : String) (now nid pid : Nat),
        content ≠ "" → authorId ≠ "" → emailTest content = false →
        (handleForumPost s ⟨some "ab", some content, some authorId, none⟩ now nid pid
            false false).1 = PostOutcome.created) := by
  refine ⟨?_, ?_, ?_⟩
  · intro title content h
    unfold newThreadValidate
    rw [if_pos (Or.inr h)]
  · intro title content ht hc he1 he2 hp1 hp2
    unfold newThreadValidate
    rw [if_neg, if_neg, if_neg, if_neg]
    · simp [he1, he2, hp1, hp2]
    · simp [he1, he2, hp1, hp2]
    · rintro (h | h)
      · rw [h] at hc; simp at hc
      · omega
    · rintro (h | h)
      · rw [h] at ht; simp at ht
      · omega
  · intro s content authorId now nid pid hc ha he
    simp [handleForumPost, jsFalsyStr, hc, ha, he]

/-- C7 witness: the amended statement at concrete inputs. -/
theorem titleBounds_amended_witness :
    newThreadValidate "ab" "whatever the content is" =
      some "Title must be at least 3 characters long" ∧
    newThreadValidate "abc" "plenty of calm words here" = none ∧
    (handleForumPost ⟨[], []⟩ ⟨some "ab", some "another interesting story", some "anon_c7", none⟩
        6 2 3 false false).1 = PostOutcome.created :=
  ⟨titleBounds_amended.1 "ab" "whatever the content is" (by decide),
   titleBounds_amended.2.1 "abc" "plenty of calm words here" (by decide) (by decide)
     (by decide) (by decide) (by decide) (by decide),
   titleBounds_amended.2.2 ⟨[], []⟩ "another interesting story" "anon_c7" 6 2 3
     (by decide) (by decide) (by decide)⟩

/-- C4 counterexample: a `threadId` that resolves to no stored thread yields a
500 response (the store error is surfaced), not the claimed 404. -/
theorem getThread_unknown_500_cex :
    getThread ⟨[], []⟩ 1 = (500, none) ∧ (500 : Nat) ≠ 404 := by
  refine ⟨by decide, by decide⟩

/-- C4 amended: an id matching no stored thread yields a 500 (not a 404); a
200 response carries a stored thread with that id, together with exactly its
replies ordered by `created_at` ascending. -/
theorem getThread_amended (s : Store) (tid : Nat) :
    ((∀ t ∈ s.threads, t.id ≠ tid) → getThread s tid = (500, none)) ∧
    (∀ t rs, getThread s tid = (200, some (t, rs)) →
      t ∈ s.threads ∧ t.id = tid ∧
      rs.Perm (s.posts.filter (fun p => p.threadId == tid)) ∧ rs.Sorted byCreatedAsc) := by
  constructor
  · intro h
    have hf : s.threads.filter (fun t => t.id == tid) = [] := by
      simp only [List.filter_eq_nil_iff]
      intro t ht
      simpa using h t ht
    simp [getThread, hf]
  · intro t rs h
    rcases hf : s.threads.filter (fun t => t.id == tid) with _ | ⟨t', l⟩
    · simp [getThread, hf] at h
    · rcases l with _ | ⟨t'', l'⟩
      · simp only [getThread, hf] at h
        obtain ⟨h200, heq⟩ := Prod.mk.injEq .. ▸ h
        obtain ⟨hteq, hrs⟩ := Prod.mk.injEq .. ▸ (Option.some.injEq .. ▸ heq)
        have htmem : t' ∈ s.threads.filter (fun t => t.id == tid) := by
          rw [hf]; exact List.mem_singleton.mpr rfl
        rw [List.mem_filter] at htmem
        refine ⟨hteq ▸ htmem.1, ?_, ?_, ?_⟩
        · have := htmem.2
          rw [← hteq]
          simpa using this
        · rw [← hrs]
          exact List.perm_insertionSort byCreatedAsc _
        · rw [← hrs]
          exact List.sorted_insertionSort byCreatedAsc _
      · simp [getThread, hf] at h

/-- C4 witness: the amended statement at concrete stores: the empty store
yields a 500, and a resolving id yields the thread with its replies. -/
theorem getThread_amended_witness :
    getThread ⟨[], []⟩ 3 = (500, none) ∧
    ((⟨1, "Welcome", "anon_a", 0, 2⟩ : Thread) ∈
        (⟨[⟨1, "Welcome", "anon_a", 0, 2⟩], [⟨5, 1, "First post", "anon_a", 1⟩]⟩ : Store).threads ∧
      (⟨1, "Welcome", "anon_a", 0, 2⟩ : Thread).id = 3 - 2 ∧
      List.Perm [⟨5, 1, "First post", "anon_a", 1⟩]
        ((⟨[⟨1, "Welcome", "anon_a", 0, 2⟩], [⟨5, 1, "First post", "anon_a", 1⟩]⟩ : Store).posts.filter
          (fun p => p.threadId == 3 - 2)) ∧
      List.Sorted byCreatedAsc [⟨5, 1, "First post", "anon_a", 1⟩]) :=
  ⟨(getThread_amended ⟨[], []⟩ 3).1 (by simp),
   (getThread_amended ⟨[⟨1, "Welcome", "anon_a", 0, 2⟩], [⟨5, 1, "First post", "anon_a", 1⟩]⟩
      (3 - 2)).2 ⟨1, "Welcome", "anon_a", 0, 2⟩ [⟨5, 1, "First post", "anon_a", 1⟩] (by decide)⟩

/-- C10 counterexample: a POST with the empty-string author id (which does not
start with `anon_`) is rejected with `Missing required fields`, not with the
claimed `Invalid author ID format`. -/
theorem forumTs_emptyAuthor_cex :
    forumTsPost none (some "hello there friends") (some "") none 0 =
      TsOutcome.response 400 "Missing required fields" ∧
    (strStartsWith "" "anon_") = false ∧
    "Missing required fields" ≠ "Invalid author ID format" := by
  refine ⟨by decide, by decide, by decide⟩

/-- C10 amended: every POST with non-empty `authorId` and non-empty `content`
whose author id does not start with `anon_` is rejected with 400
`Invalid author ID format` (an absent or empty field is instead rejected as
`Missing required fields`), and any post echoed by a 201 has an `anon_`-prefixed
author id. -/
theorem forumTs_authorCheck_amended :
    (∀ (title content authorId : Option String) (threadId : Option String) (now : Nat),
        jsFalsyStr authorId = false → jsFalsyStr content = false →
        strStartsWith (authorId.getD "") "anon_" = false →
        forumTsPost title content authorId threadId now =
          TsOutcome.response 400 "Invalid author ID format") ∧
    (∀ (title content authorId : Option String) (threadId : Option String) (now : Nat)
        (p : TsPost), forumTsPost title content authorId threadId now = TsOutcome.created p →
        strStartsWith p.authorId "anon_" = true) := by
  constructor
  · intro title content authorId threadId now hA hC hPre
    simp [forumTsPost, hA, hC, hPre]
  · intro title content authorId threadId now p h
    unfold forumTsPost at h
    split_ifs at h with h1 h2 h3
    all_goals injection h with h'
    all_goals subst h'
    all_goals simpa using h2

/-- C10 witness: the amended statement at concrete requests. -/
theorem forumTs_authorCheck_amended_witness :
    forumTsPost none (some "hi everyone") (some "bob") none 0 =
      TsOutcome.response 400 "Invalid author ID format" ∧
    strStartsWith (TsPost.mk 3 none "hello world" "anon_q" none).authorId "anon_" = true :=
  ⟨forumTs_authorCheck_amended.1 none (some "hi everyone") (some "bob") none 0
      (by decide) (by decide) (by decide),
   forumTs_authorCheck_amended.2 none (some "hello world") (some "anon_q") none 3
      ⟨3, none, "hello world", "anon_q", none⟩ (by decide)⟩

/-- Bounds characterising `(n + limit - 1) / limit` as the ceiling of
`n / limit` when `0 < n` and `0 < limit`. -/
theorem ceilDiv_bounds (n limit : Nat) (hn : 0 < n) (hl : 0 < limit) :
    ((n + limit - 1) / limit - 1) * limit < n ∧ n ≤ (n + limit - 1) / limit * limit := by
  have hdm := Nat.div_add_mod (n + limit - 1) limit
  have hmlt : (n + limit - 1) % limit < limit := Nat.mod_lt _ hl
  have hsub : ((n + limit - 1) / limit - 1) * limit = (n + limit - 1) / limit * limit - limit := by
    rw [Nat.sub_mul, one_mul]
  rw [Nat.mul_comm] at hdm
  have key : ∀ A m : Nat, A + m = n + limit - 1 → m < limit → A - limit < n ∧ n ≤ A := by
    intro A m h1 h2
    omega
  have hb := key ((n + limit - 1) / limit * limit) ((n + limit - 1) % limit) hdm hmlt
  exact ⟨hsub ▸ hb.1, hb.2⟩

/-- C6 counterexample: on the empty store the handler returns `totalPages = 1`
(`0` is falsy in `count ? Math.ceil(count / limitNum) : 1`), whereas the
claimed formula `ceil(totalCount / pageSize)` gives `0`. -/
theorem listThreads_empty_totalPages_cex :
    (listThreads ⟨[], []⟩ 1 10).totalPages = 1 ∧ (0 + 10 - 1) / 10 = 0 ∧ (1 : Nat) ≠ 0 := by
  refine ⟨by decide, by decide, by decide⟩

/-- C6 amended: for a non-empty store `totalPages` is `ceil(totalCount / pageSize)`
(characterised by its bounds), while on an empty store it is `1`; in particular
`listThreads(page=1, limit=10)` on the empty store returns
`{threads: [], page: 1, totalPages: 1}`. -/
theorem listThreads_totalPages_amended :
    (∀ (s : Store) (page limit : Nat), 0 < limit →
        (s.threads.length = 0 → (listThreads s page limit).totalPages = 1) ∧
        (0 < s.threads.length →
          ((listThreads s page limit).totalPages - 1) * limit < s.threads.length ∧
          s.threads.length ≤ (listThreads s page limit).totalPages * limit)) ∧
    listThreads ⟨[], []⟩ 1 10 = ⟨[], 1, 1⟩ := by
  constructor
  · intro s page limit hl
    constructor
    · intro h0
      simp [listThreads, h0]
    · intro hn
      have htp : (listThreads s page limit).totalPages =
          (s.threads.length + limit - 1) / limit := by
        simp [listThreads, Nat.pos_iff_ne_zero.mp hn]
      rw [htp]
      exact ceilDiv_bounds s.threads.length limit hn hl
  · decide

/-- A store of three threads, used to witness the pagination bounds. -/
def threeThreads : Store :=
  ⟨[⟨1, "First", "anon_1", 0, 0⟩, ⟨2, "Second", "anon_2", 0, 1⟩, ⟨3, "Third", "anon_3", 0, 2⟩], []⟩

/-- C6 witness: the amended bounds at three threads and page size two
(`totalPages = 2`). -/
theorem listThreads_totalPages_amended_witness :
    ((listThreads threeThreads 1 2).totalPages - 1) * 2 < threeThreads.threads.length ∧
    threeThreads.threads.length ≤ (listThreads threeThreads 1 2).totalPages * 2 :=
  (listThreads_totalPages_amended.1 threeThreads 1 2 (by decide)).2 (by decide)

/-- C9 counterexample: for `Math.random() = 0.5` (whose base-36 rendering is
`"0.i"`) and `Date.now() = 0`, the generated id is `"anon_i_0"`: its
random-token component has length 1, not the claimed 8. -/
theorem anonToken_length_cex :
    generateAnonymousId [18] 0 = "anon_i_0" ∧
    (anonToken (generateAnonymousId [18] 0)).length = 1 ∧ (1 : Nat) ≠ 8 := by
  refine ⟨by decide, by decide, by decide⟩

/-- Base-36 digit characters are digits or lowercase letters, never `'_'`. -/
theorem base36DigitChar_ne_underscore {d : Nat} (hd : d < 36) :
    (base36DigitChar d != '_') = true := by
  interval_cases d <;> decide

/-- `takeWhile` stops exactly at the first failing element. -/
theorem takeWhile_append_stop {p : Char → Bool} {xs ys : List Char} {y : Char}
    (hxs : ∀ x ∈ xs, p x = true) (hy : p y = false) :
    (xs ++ y :: ys).takeWhile p = xs := by
  induction xs with
  | nil => simp [List.takeWhile_cons, hy]
  | cons a l ih =>
    have ha := hxs a (by simp)
    simp [List.takeWhile_cons, ha, ih (fun x hx => hxs x (by simp [hx]))]

/-- C9 amended: the generated id always has the shape
`"anon_" ++ token ++ "_" ++ base36(nowMillis)`, where the token is the
base-36 fractional expansion of the random value truncated to 8 characters:
its length is `min 8 (number of digits)`, which is 8 for typical random
values but shorter whenever the expansion terminates early. -/
theorem anonId_token_amended (digits : List Nat) (nowMs : Nat)
    (hd : ∀ d ∈ digits, d < 36) :
    generateAnonymousId digits nowMs =
      "anon_" ++ String.mk ((digits.map base36DigitChar).take 8) ++ "_" ++ natToBase36 nowMs ∧
    (anonToken (generateAnonymousId digits nowMs)).length = min 8 digits.length := by
  have h1 : generateAnonymousId digits nowMs =
      "anon_" ++ String.mk ((digits.map base36DigitChar).take 8) ++ "_" ++ natToBase36 nowMs := by
    cases digits with
    | nil => simp [generateAnonymousId, jsSubstring2to10, randomToString36]
    | cons d ds => simp [generateAnonymousId, jsSubstring2to10, randomToString36]
  refine ⟨h1, ?_⟩
  rw [h1]
  have hdata : ("anon_" ++ String.mk ((digits.map base36DigitChar).take 8) ++ "_" ++
      natToBase36 nowMs).toList =
      'a' :: 'n' :: 'o' :: 'n' :: '_' ::
        ((digits.map base36DigitChar).take 8 ++ '_' :: (natToBase36 nowMs).toList) := by
    simp [String.toList, String.data_append, String.mk]
  rw [anonToken, hdata]
  have htw : (((digits.map base36DigitChar).take 8 ++ '_' :: (natToBase36 nowMs).toList).takeWhile
      (fun c => c != '_')) = (digits.map base36DigitChar).take 8 := by
    refine takeWhile_append_stop ?_ (by decide)
    intro x hx
    have hx' := List.mem_map.mp (List.mem_of_mem_take hx)
    obtain ⟨d, hdmem, rfl⟩ := hx'
    exact base36DigitChar_ne_underscore (hd d hdmem)
  simp only [List.drop_succ_cons, List.drop_zero, htw]
  simp [String.length, List.length_take, List.length_map]

/-- C9 witness: the amended statement at the expansion `[1, 2, 3]` and
`Date.now() = 37` (`"11"` in base 36): the token is `"123"`, of length
`min 8 3 = 3`. -/
theorem anonId_token_amended_witness :
    generateAnonymousId [1, 2, 3] 37 =
      "anon_" ++ String.mk (([1, 2, 3].map base36DigitChar).take 8) ++ "_" ++ natToBase36 37 ∧
    (anonToken (generateAnonymousId [1, 2, 3] 37)).length = min 8 ([1, 2, 3] : List Nat).length :=
  anonId_token_amended [1, 2, 3] 37 (by decide)

/-- The first element survives truncation to a positive length. -/
theorem headOpt_take {l : List Thread} {n : Nat} (hn : 0 < n) : (l.take n).head? = l.head? := by
  cases l with
  | nil => simp
  | cons a t =>
    cases n with
    | zero => omega
    | succ m => simp [List.take]

/-- In a list sorted by `last_activity` descending, an element that strictly
dominates all others is the head. -/
theorem sorted_head_of_strict_max {l : List Thread} {x : Thread}
    (hs : l.Sorted byActivityDesc) (hx : x ∈ l)
    (hmax : ∀ y ∈ l, y.lastActivity ≤ x.lastActivity)
    (huniq : ∀ y ∈ l, y.lastActivity = x.lastActivity → y = x) :
    l.head? = some x := by
  cases l with
  | nil => cases hx
  | cons h t =>
    have hhl : ∀ y ∈ t, byActivityDesc h y := (List.sorted_cons.mp hs).1
    have hhx : h.lastActivity ≤ x.lastActivity := hmax h (by simp)
    rcases List.mem_cons.mp hx with rfl | hxt
    · rfl
    · have hxh : x.lastActivity ≤ h.lastActivity := hhl x hxt
      have heq : h.lastActivity = x.lastActivity := Nat.le_antisymm hhx hxh
      simp [huniq h (by simp) heq]

/-- C5: every page returned by `listThreads` is ordered by `last_activity`
descending, and a successful reply stamps the parent thread's `last_activity`
with the current time, so that (the time being fresh) the parent heads the
first page of a subsequent `listThreads`. -/
theorem listThreads_order_and_reply_bump :
    (∀ (s : Store) (page limit : Nat),
        ((listThreads s page limit).threads).Sorted byActivityDesc) ∧
    (∀ (s : Store) (req : PostRequest) (now nid pid tid limit : Nat) (t : Thread),
        req.threadId = some tid →
        jsFalsyStr req.authorId = false → jsFalsyStr req.content = false →
        emailTest (req.content.getD "") = false →
        t ∈ s.threads → t.id = tid →
        (∀ u ∈ s.threads, u.id = tid → u = t) →
        (∀ u ∈ s.threads, u.id ≠ tid → u.lastActivity < now) →
        0 < limit →
        (handleForumPost s req now nid pid false false).1 = PostOutcome.created ∧
        (listThreads (handleForumPost s req now nid pid false false).2 1 limit).threads.head? =
          some { t with lastActivity := now }) := by
  constructor
  · intro s page limit
    have hs := List.sorted_insertionSort byActivityDesc s.threads
    exact List.Pairwise.sublist ((List.take_sublist _ _).trans (List.drop_sublist _ _)) hs
  · intro s req now nid pid tid limit t hT hA hC hE htmem htid huniq hlt hlim
    have hrun : handleForumPost s req now nid pid false false =
        (PostOutcome.created,
         ⟨s.threads.map (fun u => if u.id = tid then { u with lastActivity := now } else u),
          s.posts ++ [⟨pid, tid, req.content.getD "", req.authorId.getD "", now⟩]⟩) := by
      simp [handleForumPost, hA, hC, hE, hT]
    rw [hrun]
    refine ⟨rfl, ?_⟩
    set f : Thread → Thread := fun u => if u.id = tid then { u with lastActivity := now } else u
      with hf
    have hft : f t = { t with lastActivity := now } := by
      simp [hf, htid]
    have hsorted := List.sorted_insertionSort byActivityDesc (s.threads.map f)
    have hmem : { t with lastActivity := now } ∈
        List.insertionSort byActivityDesc (s.threads.map f) := by
      rw [List.mem_insertionSort]
      exact List.mem_map.mpr ⟨t, htmem, hft⟩
    have hmax : ∀ y ∈ List.insertionSort byActivityDesc (s.threads.map f),
        y.lastActivity ≤ ({ t with lastActivity := now } : Thread).lastActivity := by
      intro y hy
      rw [List.mem_insertionSort] at hy
      obtain ⟨u, humem, rfl⟩ := List.mem_map.mp hy
      by_cases hu : u.id = tid
      · simp [hf, hu]
      · simp only [hf, if_neg hu]
        exact Nat.le_of_lt (hlt u humem hu)
    have huniq2 : ∀ y ∈ List.insertionSort byActivityDesc (s.threads.map f),
        y.lastActivity = ({ t with lastActivity := now } : Thread).lastActivity →
        y = { t with lastActivity := now } := by
      intro y hy hlaeq
      rw [List.mem_insertionSort] at hy
      obtain ⟨u, humem, rfl⟩ := List.mem_map.mp hy
      by_cases hu : u.id = tid
      · have hut : u = t := huniq u humem hu
        rw [hut]
        exact hft
      · exfalso
        simp only [hf, if_neg hu] at hlaeq
        exact Nat.lt_irrefl now (by calc
          now = u.lastActivity := hlaeq.symm
          _ < now := hlt u humem hu)
    have hhead := sorted_head_of_strict_max hsorted hmem hmax huniq2
    simp only [listThreads]
    rw [Nat.sub_self, Nat.zero_mul, List.drop_zero, headOpt_take hlim]
    exact hhead

/-- C5 witness: the ordering property and the bump at a concrete store: after a
reply at time 30 to thread 1, the first page starts with thread 1 stamped 30. -/
theorem listThreads_order_and_reply_bump_witness :
    ((listThreads ⟨[⟨1, "Old", "anon_1", 0, 10⟩, ⟨2, "Newer", "anon_2", 0, 20⟩], []⟩ 1 10).threads).Sorted
        byActivityDesc ∧
    ((handleForumPost ⟨[⟨1, "Old", "anon_1", 0, 10⟩, ⟨2, "Newer", "anon_2", 0, 20⟩], []⟩
        ⟨none, some "thanks for sharing this", some "anon_r", some 1⟩ 30 0 9 false false).1 =
      PostOutcome.created ∧
     (listThreads (handleForumPost ⟨[⟨1, "Old", "anon_1", 0, 10⟩, ⟨2, "Newer", "anon_2", 0, 20⟩], []⟩
        ⟨none, some "thanks for sharing this", some "anon_r", some 1⟩ 30 0 9 false false).2
        1 10).threads.head? = some ⟨1, "Old", "anon_1", 0, 30⟩) :=
  ⟨listThreads_order_and_reply_bump.1 ⟨[⟨1, "Old", "anon_1", 0, 10⟩, ⟨2, "Newer", "anon_2", 0, 20⟩], []⟩ 1 10,
   listThreads_order_and_reply_bump.2 ⟨[⟨1, "Old", "anon_1", 0, 10⟩, ⟨2, "Newer", "anon_2", 0, 20⟩], []⟩
     ⟨none, some "thanks for sharing this", some "anon_r", some 1⟩ 30 0 9 1 10
     ⟨1, "Old", "anon_1", 0, 10⟩ rfl (by decide) (by decide) (by decide) (by decide) (by decide)
     (by decide) (by decide) (by decide)⟩

end SafeHarbor
